import Mathlib

/-!
Shallow embedding of the Host/Hostes panel backend (a Flask + SQLite bus-crew
application) and proofs about its fare-quoting, seat neighbor rule, trip
teardown, consignment photo handling, upload validation, route/stop lookup
and speed-limit cache.  Database tables are modelled as Lean lists of rows,
the filesystem as a list of present file paths, and monetary prices as
rationals.
-/

namespace HostPanel

/-- Row of the `fares` table: a directed (route, from_stop, to_stop) price. -/
structure FareRow where
  route : String
  from_stop : String
  to_stop : String
  price : Rat
deriving Repr, DecidableEq

/-- Row of the `routes` table; `stops` holds the JSON-decoded stop list. -/
structure RouteRow where
  id : Nat
  name : String
  stops : List String
deriving Repr, DecidableEq

/-- Built-in constant routes (`ROUTE_STOPS` in `app.py`). -/
def ROUTE_STOPS : List (String × List String) :=
  [ ("Denizli – İstanbul",
     ["Denizli otogar","Sarayköy","Buldan","Bozalan","Derbent(Denizli)","Kadıköy",
      "İl Sınırı(Manisa)","Dindarlı","Dadağlı","Sarıgöl Garaj","Afşar","Bereketli",
      "Hacıaliler","Ortahan","Belenyaka","Alaşehir Otogar","Alaşehir Stadyum",
      "Akkeçili","Piyadeler","Kavaklıdere","Salihli Garaj","Sart","Ahmetli",
      "Gökkaya","Akçapınar","Derbent(Turgutlu)","Turgutlu Garaj","Özdilek(Turgutlu)",
      "Manisa Otogar","Akhisar","Saruhanlı","Soma","Kırkağaç","Balıkesir","Susurluk",
      "Mustafa K.P(Bursa)","Bursa Otogar","Gebze Garaj","Harem","Alibeyköy","Esenler Otogar"]),
    ("Denizli – İzmir",
     ["Denizli otogar","Sarayköy","Alaşehir","Salihli Garaj","Turgutlu","Manisa Otogar","Bornova","İzmir Otogar"]),
    ("İstanbul – Denizli",
     ["Esenler Otogar","Alibeyköy","Harem","Gebze Garaj","Bursa Otogar","Susurluk","Balıkesir",
      "Kırkağaç","Soma","Akhisar","Manisa Otogar","Turgutlu Garaj","Salihli Garaj","Alaşehir Otogar","Denizli otogar"]),
    ("İzmir – Denizli",
     ["İzmir Otogar","Bornova","Manisa Otogar","Turgutlu Garaj","Salihli Garaj","Alaşehir Otogar","Sarayköy","Denizli otogar"]),
    ("İstanbul – Antalya",
     ["Esenler","Alibeyköy","Harem","Gebze","Bursa","Korkuteli","Antalya Otogar"]),
    ("Antalya – İstanbul",
     ["Antalya Otogar","Korkuteli","Bursa","Gebze","Harem","Alibeyköy","Esenler"]) ]

/-- Stop list of the built-in default route, `ROUTE_STOPS["Denizli – İstanbul"]`. -/
def denizliIstanbulStops : List String :=
  (((ROUTE_STOPS.find? (fun p => p.1 == "Denizli – İstanbul")).map (fun p => p.2)).getD [])

/-- `get_stops` from `app.py`: the routes table wins, then the built-in table,
then the built-in "Denizli – İstanbul" list as a last resort. -/
def get_stops (routesTable : List RouteRow) (route_name : String) : List String :=
  match routesTable.find? (fun r => r.name == route_name) with
  | some r => r.stops
  | none =>
    match ROUTE_STOPS.find? (fun p => p.1 == route_name) with
    | some p => p.2
    | none => denizliIstanbulStops

/-- `list_stops_for_route` from `app.py` (an alias for `get_stops`). -/
def list_stops_for_route (routesTable : List RouteRow) (route_name : String) : List String :=
  get_stops routesTable route_name

/-- `fetch_fare_exact` from `app.py`: exact-match lookup in the `fares` table. -/
def fetch_fare_exact (fares : List FareRow) (route from_stop to_stop : String) : Option Rat :=
  (fares.find? (fun r => r.route == route && r.from_stop == from_stop && r.to_stop == to_stop)).map
    (fun r => r.price)

/-- The `for k in range(i, j)` accumulation loop inside `quote_price_segmented`:
walk adjacent stop pairs from index `k` up to `j`, adding each segment fare to
`total`; a missing segment row aborts with `none`. -/
def seg_loop (fares : List FareRow) (route : String) (stops : List String) (j : Nat) :
    Nat → Rat → Option Rat
  | k, total =>
    if k < j then
      match fetch_fare_exact fares route (stops.getD k "") (stops.getD (k + 1) "") with
      | none => none
      | some p => seg_loop fares route stops j (k + 1) (total + p)
    else some total
  termination_by k _ => j - k

/-- `quote_price_segmented` from `app.py`: position both stops on the route's
stop list, handle same-stop / wrong-order, then direct fare lookup with a
segment-summation fallback. -/
def quote_price_segmented (routesTable : List RouteRow) (fares : List FareRow)
    (route from_stop to_stop : String) : Option Rat × String :=
  let stops := list_stops_for_route routesTable route
  if stops = [] ∨ from_stop ∉ stops ∨ to_stop ∉ stops then
    (none, "missing-stops")
  else
    let i := stops.indexOf from_stop
    let j := stops.indexOf to_stop
    if i = j then (some 0, "same-stop")
    else if j < i then (none, "wrong-order")
    else
      match fetch_fare_exact fares route from_stop to_stop with
      | some exact => (some exact, "direct")
      | none =>
        match seg_loop fares route stops j i 0 with
        | none => (none, "segment-missing")
        | some total => (some total, "summed")

/-- When every adjacent-pair fare between `i` and `j` exists, the segment loop
returns the accumulator plus the sum of those per-segment fares. -/
theorem seg_loop_eq_some (fares : List FareRow) (route : String) (stops : List String)
    (j : Nat) (f : Nat → Rat) :
    ∀ i t, (∀ k, i ≤ k → k < j →
        fetch_fare_exact fares route (stops.getD k "") (stops.getD (k + 1) "") = some (f k)) →
      seg_loop fares route stops j i t = some (t + ∑ k in Finset.Ico i j, f k) := by
  suffices h : ∀ n i t, j - i = n →
      (∀ k, i ≤ k → k < j →
        fetch_fare_exact fares route (stops.getD k "") (stops.getD (k + 1) "") = some (f k)) →
      seg_loop fares route stops j i t = some (t + ∑ k in Finset.Ico i j, f k) by
    intro i t hall
    exact h (j - i) i t rfl hall
  intro n
  induction n with
  | zero =>
    intro i t hn _
    have hij : ¬ i < j := by omega
    rw [seg_loop, if_neg hij, Finset.Ico_eq_empty hij, Finset.sum_empty, add_zero]
  | succ n ih =>
    intro i t hn hall
    have hij : i < j := by omega
    rw [seg_loop, if_pos hij, hall i (Nat.le_refl i) hij]
    show seg_loop fares route stops j (i + 1) (t + f i) = _
    rw [ih (i + 1) (t + f i) (by omega) (fun k hk1 hk2 => hall k (by omega) hk2),
      Finset.sum_eq_sum_Ico_succ_bot hij f, add_assoc]

/-- When some adjacent-pair fare between `i` and `j` is missing, the segment
loop fails with `none` no matter the accumulator. -/
theorem seg_loop_eq_none (fares : List FareRow) (route : String) (stops : List String)
    (j : Nat) :
    ∀ i t k, i ≤ k → k < j →
      fetch_fare_exact fares route (stops.getD k "") (stops.getD (k + 1) "") = none →
      seg_loop fares route stops j i t = none := by
  suffices h : ∀ n i t k, j - i = n → i ≤ k → k < j →
      fetch_fare_exact fares route (stops.getD k "") (stops.getD (k + 1) "") = none →
      seg_loop fares route stops j i t = none by
    intro i t k hik hkj hnone
    exact h (j - i) i t k rfl hik hkj hnone
  intro n
  induction n with
  | zero =>
    intro i t k hn hik hkj _
    omega
  | succ n ih =>
    intro i t k hn hik hkj hnone
    have hij : i < j := Nat.lt_of_le_of_lt hik hkj
    rw [seg_loop, if_pos hij]
    by_cases hik0 : i = k
    · subst hik0
      rw [hnone]
    · cases hfetch : fetch_fare_exact fares route (stops.getD i "") (stops.getD (i + 1) "") with
      | none => rfl
      | some p => exact ih (i + 1) (t + p) k (by omega) (by omega) hkj hnone

/-- Both stops being on the list rules out the "missing-stops" branch;
this rewrites `quote_price_segmented` down to the index comparison. -/
theorem quote_price_segmented_of_mem (routesTable : List RouteRow) (fares : List FareRow)
    (route from_stop to_stop : String)
    (hfrom : from_stop ∈ list_stops_for_route routesTable route)
    (hto : to_stop ∈ list_stops_for_route routesTable route) :
    quote_price_segmented routesTable fares route from_stop to_stop =
      (let stops := list_stops_for_route routesTable route
       let i := stops.indexOf from_stop
       let j := stops.indexOf to_stop
       if i = j then (some 0, "same-stop")
       else if j < i then (none, "wrong-order")
       else
         match fetch_fare_exact fares route from_stop to_stop with
         | some exact => (some exact, "direct")
         | none =>
           match seg_loop fares route stops j i 0 with
           | none => (none, "segment-missing")
           | some total => (some total, "summed")) := by
  have hne : ¬ (list_stops_for_route routesTable route = [] ∨
      from_stop ∉ list_stops_for_route routesTable route ∨
      to_stop ∉ list_stops_for_route routesTable route) := by
    push_neg
    exact ⟨List.ne_nil_of_mem hfrom, hfrom, hto⟩
  rw [quote_price_segmented, if_neg hne]

/-- Concrete three-stop route used to exercise the fare-quoting theorems. -/
def exampleRoutes : List RouteRow := [⟨1, "r", ["a", "b", "c"]⟩]

/-- Fares with both a direct row and full segment coverage for `exampleRoutes`. -/
def exampleFaresDirect : List FareRow :=
  [⟨"r", "a", "c", 10⟩, ⟨"r", "a", "b", 3⟩, ⟨"r", "b", "c", 4⟩]

/-- Fares with only the two adjacent-segment rows for `exampleRoutes`. -/
def exampleFaresSeg : List FareRow := [⟨"r", "a", "b", 3⟩, ⟨"r", "b", "c", 4⟩]

/-- Fares for `exampleRoutes` with the second segment row missing. -/
def exampleFaresGap : List FareRow := [⟨"r", "a", "b", 3⟩]

/-- C1: for stops at positions `i < j` on the route's stop list, the quote
returns the direct fare row's price tagged "direct" whenever that row exists,
and otherwise the sum of all adjacent-pair fares between the two positions
tagged "summed" whenever every such row exists; direct lookup takes
precedence over summation. -/
theorem quote_direct_precedence (routesTable : List RouteRow) (fares : List FareRow)
    (route from_stop to_stop : String) (i j : Nat)
    (hfrom : from_stop ∈ list_stops_for_route routesTable route)
    (hto : to_stop ∈ list_stops_for_route routesTable route)
    (hif : (list_stops_for_route routesTable route).indexOf from_stop = i)
    (hit : (list_stops_for_route routesTable route).indexOf to_stop = j)
    (hij : i < j) :
    (∀ p, fetch_fare_exact fares route from_stop to_stop = some p →
       quote_price_segmented routesTable fares route from_stop to_stop = (some p, "direct"))
    ∧
    (∀ f : Nat → Rat,
       fetch_fare_exact fares route from_stop to_stop = none →
       (∀ k, i ≤ k → k < j →
          fetch_fare_exact fares route
            ((list_stops_for_route routesTable route).getD k "")
            ((list_stops_for_route routesTable route).getD (k + 1) "") = some (f k)) →
       quote_price_segmented routesTable fares route from_stop to_stop =
         (some (∑ k in Finset.Ico i j, f k), "summed")) := by
  constructor
  · intro p hp
    rw [quote_price_segmented_of_mem routesTable fares route from_stop to_stop hfrom hto]
    simp only [hif, hit, hp]
    rw [if_neg (show ¬ i = j by omega), if_neg (show ¬ j < i by omega)]
  · intro f hnone hall
    rw [quote_price_segmented_of_mem routesTable fares route from_stop to_stop hfrom hto]
    simp only [hif, hit, hnone,
      seg_loop_eq_some fares route (list_stops_for_route routesTable route) j f i 0 hall,
      zero_add]
    rw [if_neg (show ¬ i = j by omega), if_neg (show ¬ j < i by omega)]

/-- C1 witness: on the concrete three-stop route, a present direct row wins
with tag "direct", and with no direct row the two segment fares 3 and 4 sum
to 7 with tag "summed". -/
theorem quote_direct_precedence_witness :
    quote_price_segmented exampleRoutes exampleFaresDirect "r" "a" "c" = (some 10, "direct") ∧
    quote_price_segmented exampleRoutes exampleFaresSeg "r" "a" "c" = (some 7, "summed") := by
  constructor
  · exact (quote_direct_precedence exampleRoutes exampleFaresDirect "r" "a" "c" 0 2
      (by decide) (by decide) (by decide) (by decide) (by decide)).1 10 (by decide)
  · have h := (quote_direct_precedence exampleRoutes exampleFaresSeg "r" "a" "c" 0 2
      (by decide) (by decide) (by decide) (by decide) (by decide)).2
      (fun k => if k = 0 then (3 : Rat) else 4) (by decide)
      (by
        intro k h1 h2
        interval_cases k <;> decide)
    rw [h, ← Finset.range_eq_Ico, Finset.sum_range_succ, Finset.sum_range_succ,
      Finset.sum_range_zero]
    norm_num

/-- C4: with stops at positions `i < j`, no direct fare row, and some adjacent
pair in between missing its fare row, the quote returns no price and the tag
"segment-missing" — never a partial sum. -/
theorem quote_segment_missing (routesTable : List RouteRow) (fares : List FareRow)
    (route from_stop to_stop : String) (i j k : Nat)
    (hfrom : from_stop ∈ list_stops_for_route routesTable route)
    (hto : to_stop ∈ list_stops_for_route routesTable route)
    (hif : (list_stops_for_route routesTable route).indexOf from_stop = i)
    (hit : (list_stops_for_route routesTable route).indexOf to_stop = j)
    (hij : i < j)
    (hnone : fetch_fare_exact fares route from_stop to_stop = none)
    (hik : i ≤ k) (hkj : k < j)
    (hmiss : fetch_fare_exact fares route
      ((list_stops_for_route routesTable route).getD k "")
      ((list_stops_for_route routesTable route).getD (k + 1) "") = none) :
    quote_price_segmented routesTable fares route from_stop to_stop =
      (none, "segment-missing") := by
  rw [quote_price_segmented_of_mem routesTable fares route from_stop to_stop hfrom hto]
  simp only [hif, hit, hnone,
    seg_loop_eq_none fares route (list_stops_for_route routesTable route) j i 0 k hik hkj hmiss]
  rw [if_neg (show ¬ i = j by omega), if_neg (show ¬ j < i by omega)]

/-- C4 witness: with only the a→b segment priced and no direct row, quoting
a→c on the concrete route fails with "segment-missing". -/
theorem quote_segment_missing_witness :
    quote_price_segmented exampleRoutes exampleFaresGap "r" "a" "c" =
      (none, "segment-missing") :=
  quote_segment_missing exampleRoutes exampleFaresGap "r" "a" "c" 0 2 1
    (by decide) (by decide) (by decide) (by decide) (by decide) (by decide)
    (by decide) (by decide) (by decide)

/-- C7: with the origin positioned strictly after the destination on the
route's stop list, the quote always fails with tag "wrong-order", whatever
the fares table holds. -/
theorem quote_wrong_order (routesTable : List RouteRow) (fares : List FareRow)
    (route from_stop to_stop : String) (i j : Nat)
    (hfrom : from_stop ∈ list_stops_for_route routesTable route)
    (hto : to_stop ∈ list_stops_for_route routesTable route)
    (hif : (list_stops_for_route routesTable route).indexOf from_stop = i)
    (hit : (list_stops_for_route routesTable route).indexOf to_stop = j)
    (hij : j < i) :
    quote_price_segmented routesTable fares route from_stop to_stop =
      (none, "wrong-order") := by
  rw [quote_price_segmented_of_mem routesTable fares route from_stop to_stop hfrom hto]
  simp only [hif, hit]
  rw [if_neg (show ¬ i = j by omega), if_pos hij]

/-- C7 witness: quoting c→a on the concrete route fails with "wrong-order"
even though both directions of every segment could be priced. -/
theorem quote_wrong_order_witness :
    quote_price_segmented exampleRoutes exampleFaresDirect "r" "c" "a" =
      (none, "wrong-order") :=
  quote_wrong_order exampleRoutes exampleFaresDirect "r" "c" "a" 2 0
    (by decide) (by decide) (by decide) (by decide) (by decide)

/-- Row of the `trips` table. -/
structure Trip where
  id : Nat
  date : String
  route : String
  departure_time : String
  plate : String
  captain1 : String
  captain2 : String
  attendant : String
  note : String
deriving Repr, DecidableEq

/-- Row of the `seats` table, keyed by `(trip_id, seat_no)`. -/
structure SeatRow where
  trip_id : Nat
  seat_no : Nat
  stop : String
  ticket_type : String
  payment : String
  amount : Rat
  gender : String
  pair_ok : Bool
  service : Bool
  service_note : String
deriving Repr, DecidableEq

/-- Row of the `walk_on_sales` table (fields beyond the trip link elided). -/
structure WalkOn where
  id : Nat
  trip_id : Nat
  from_stop : String
  to_stop : String
  pax : Nat
  unit_price : Rat
  total : Rat
  payment : String
  note : String
deriving Repr, DecidableEq

/-- Row of the `consignments` table (payload fields beyond the keys elided). -/
structure Consignment where
  id : Nat
  trip_id : Nat
  code : String
  from_stop : String
  to_stop : String
  amount : Rat
  payment : String
  status : String
deriving Repr, DecidableEq

/-- Row of the `consignment_photos` table. -/
structure PhotoRow where
  id : Nat
  consignment_id : Nat
  role : String
  file_path : String
  mime : String
  size_bytes : Nat
deriving Repr, DecidableEq

/-- The SQLite database: every table as a list of rows, plus the
`app_state.active_trip_id` singleton column. -/
structure DB where
  trips : List Trip
  seats : List SeatRow
  walk_on_sales : List WalkOn
  consignments : List Consignment
  consignment_photos : List PhotoRow
  routes : List RouteRow
  fares : List FareRow
  active_trip_id : Option Nat
deriving Repr, DecidableEq

/-- Python `str.lower()`, modelled character-wise so proofs can evaluate it. -/
def py_lower (s : String) : String := String.mk (s.data.map Char.toLower)

/-- Python `str.strip()`, modelled character-wise so proofs can evaluate it. -/
def py_strip (s : String) : String :=
  String.mk (((s.data.dropWhile Char.isWhitespace).reverse.dropWhile Char.isWhitespace).reverse)

/-- `norm_gender` from `app.py`: strip, lowercase, and blank anything outside
the bay / bayan / empty whitelist. -/
def norm_gender (val : String) : String :=
  let v := py_lower (py_strip val)
  if v = "bay" ∨ v = "bayan" ∨ v = "" then v else ""

/-- `norm_ticket_type` from `app.py`. -/
def norm_ticket_type (val : String) : String :=
  let v := py_lower (py_strip val)
  if v = "biletli" ∨ v = "biletsiz" ∨ v = "ucretsiz" then v else "biletsiz"

/-- `norm_payment` from `app.py`. -/
def norm_payment (val : String) : String :=
  let v := py_lower (py_strip val)
  if v = "nakit" ∨ v = "iban" ∨ v = "online" ∨ v = "pos" ∨ v = "ucretsiz" then v else "nakit"

/-- The static `NEIGHBORS` adjacency table from `app.py`. -/
def NEIGHBORS : List (Nat × Nat) :=
  [(3, 4), (4, 3), (7, 8), (8, 7), (11, 12), (12, 11), (15, 16), (16, 15),
   (19, 20), (20, 19), (23, 24), (24, 23), (27, 28), (28, 27), (33, 34), (34, 33),
   (37, 38), (38, 37), (41, 42), (42, 41), (45, 46), (46, 45), (49, 50), (50, 49),
   (53, 54), (54, 53)]

/-- `NEIGHBORS.get(seat_no)` in Python: the declared neighbor, if any. -/
def neighbors_get (seat_no : Nat) : Option Nat :=
  (NEIGHBORS.find? (fun p => p.1 == seat_no)).map (fun p => p.2)

/-- The seat-row lookup `SELECT ... FROM seats WHERE trip_id=? AND seat_no=?`. -/
def find_seat (seats : List SeatRow) (trip_id seat_no : Nat) : Option SeatRow :=
  seats.find? (fun s => s.trip_id == trip_id && s.seat_no == seat_no)

/-- `neighbor_rule_ok` from `app.py`: the adjacent-seat gender-compatibility
rule. Returns `(ok, message)`. -/
def neighbor_rule_ok (seats : List SeatRow) (trip_id seat_no : Nat)
    (gender : String) (pair_ok : Bool) : Bool × String :=
  match neighbors_get seat_no with
  | none => (true, "")
  | some nb =>
    if nb = 0 ∨ gender = "" then (true, "")
    else
      match find_seat seats trip_id nb with
      | none => (true, "")
      | some row =>
        let nb_gender := norm_gender row.gender
        let nb_pair_ok := row.pair_ok
        if (gender = "bay" ∨ gender = "bayan") ∧ (nb_gender = "bay" ∨ nb_gender = "bayan") then
          if gender ≠ nb_gender ∧ ¬ (pair_ok ∨ nb_pair_ok) then
            (false, "Yan koltuk " ++ toString nb ++ " " ++ nb_gender ++
              " kayıtlı. İstisna işaretlenmeden farklı cins yan yana oturtulamaz.")
          else (true, "")
        else (true, "")

/-- `validate_stop_for_active_trip` from `app.py`. -/
def validate_stop_for_active_trip (db : DB) (stop : String) : Bool :=
  match db.active_trip_id with
  | none => false
  | some tid =>
    match db.trips.find? (fun t => t.id == tid) with
    | none => false
    | some trip => (get_stops db.routes trip.route).contains (py_strip stop)

/-- The `INSERT ... ON CONFLICT(trip_id, seat_no) DO UPDATE` upsert on `seats`. -/
def upsert_seat (seats : List SeatRow) (row : SeatRow) : List SeatRow :=
  if seats.any (fun s => s.trip_id == row.trip_id && s.seat_no == row.seat_no) then
    seats.map (fun s => if s.trip_id == row.trip_id && s.seat_no == row.seat_no then row else s)
  else
    seats ++ [row]

/-- JSON body of a POST to `/api/seat`. -/
structure SeatReq where
  seat_no : Nat
  stop : String
  ticket_type : String
  payment : String
  amount : Rat
  gender : String
  pair_ok : Bool
  service : Bool
  service_note : String
deriving Repr, DecidableEq

/-- The POST branch of `api_seat` from `app.py`: require an active trip,
validate a non-empty stop, normalize the fields, run the neighbor rule, and
upsert the seat row. Errors are returned as `.error message`. -/
def api_seat_post (db : DB) (req : SeatReq) : Except String DB :=
  match db.active_trip_id with
  | none => .error "Aktif sefer yok"
  | some tid =>
    let stop := py_strip req.stop
    if stop ≠ "" ∧ validate_stop_for_active_trip db stop = false then
      .error "Durak bu hat üzerinde değil"
    else
      let ticket_type := norm_ticket_type req.ticket_type
      let payment := norm_payment req.payment
      let gender := norm_gender req.gender
      match neighbor_rule_ok db.seats tid req.seat_no gender req.pair_ok with
      | (false, msg) => .error msg
      | (true, _) =>
        let row : SeatRow :=
          ⟨tid, req.seat_no, stop, ticket_type, payment, req.amount, gender,
            req.pair_ok, req.service, req.service_note⟩
        .ok { db with seats := upsert_seat db.seats row }

/-- True exactly on the success constructor of an endpoint result. -/
def is_ok (e : Except String DB) : Bool :=
  match e with
  | .ok _ => true
  | .error _ => false

/-- With an active trip and an empty stop field, `api_seat_post` reduces to
the neighbor-rule gate followed by the upsert. -/
theorem api_seat_post_reduce (db : DB) (tid : Nat) (hact : db.active_trip_id = some tid)
    (req : SeatReq) (hstop : req.stop = "") :
    api_seat_post db req =
      match neighbor_rule_ok db.seats tid req.seat_no (norm_gender req.gender) req.pair_ok with
      | (false, msg) => .error msg
      | (true, _) =>
        let row : SeatRow :=
          ⟨tid, req.seat_no, "", norm_ticket_type req.ticket_type, norm_payment req.payment,
            req.amount, norm_gender req.gender, req.pair_ok, req.service, req.service_note⟩
        .ok { db with seats := upsert_seat db.seats row } := by
  unfold api_seat_post
  rw [hact, hstop]
  rfl

/-- An unspecified gender always passes the neighbor rule. -/
theorem neighbor_rule_ok_of_no_gender (seats : List SeatRow) (t n : Nat) (p : Bool) :
    neighbor_rule_ok seats t n "" p = (true, "") := by
  unfold neighbor_rule_ok
  cases neighbors_get n with
  | none => rfl
  | some nb => simp

/-- C2: with seat 4 of the active trip recorded as "bayan", writing "bay" to
seat 3 is rejected with a non-empty message when neither the request's nor
seat 4's pair-exception flag is set, and succeeds when either flag is set;
moreover a seat with no neighbor mapping, an unspecified gender, or an
unoccupied neighbor seat is always accepted. -/
theorem seat_pair_rule (db : DB) (tid : Nat) (hact : db.active_trip_id = some tid)
    (nbrow : SeatRow) (hfind : find_seat db.seats tid 4 = some nbrow)
    (hg : norm_gender nbrow.gender = "bayan")
    (tt pay note : String) (amt : Rat) (sv : Bool) :
    (nbrow.pair_ok = false →
       ∃ msg, api_seat_post db ⟨3, "", tt, pay, amt, "bay", false, sv, note⟩ = .error msg ∧
         msg ≠ "")
    ∧ is_ok (api_seat_post db ⟨3, "", tt, pay, amt, "bay", true, sv, note⟩) = true
    ∧ (nbrow.pair_ok = true →
       is_ok (api_seat_post db ⟨3, "", tt, pay, amt, "bay", false, sv, note⟩) = true)
    ∧ (∀ n g p, neighbors_get n = none →
       is_ok (api_seat_post db ⟨n, "", tt, pay, amt, g, p, sv, note⟩) = true)
    ∧ (∀ n p, is_ok (api_seat_post db ⟨n, "", tt, pay, amt, "", p, sv, note⟩) = true)
    ∧ (∀ n nb g p, neighbors_get n = some nb → find_seat db.seats tid nb = none →
       is_ok (api_seat_post db ⟨n, "", tt, pay, amt, g, p, sv, note⟩) = true) := by
  have hbay : norm_gender "bay" = "bay" := by decide
  have hnb3 : neighbors_get 3 = some 4 := by decide
  refine ⟨?_, ?_, ?_, ?_, ?_, ?_⟩
  · intro hp
    refine ⟨"Yan koltuk " ++ toString 4 ++ " " ++ "bayan" ++
      " kayıtlı. İstisna işaretlenmeden farklı cins yan yana oturtulamaz.", ?_, by decide⟩
    have hrule : neighbor_rule_ok db.seats tid 3 "bay" false =
        (false, "Yan koltuk " ++ toString 4 ++ " " ++ "bayan" ++
          " kayıtlı. İstisna işaretlenmeden farklı cins yan yana oturtulamaz.") := by
      unfold neighbor_rule_ok
      simp only [hnb3, hfind, hg, hp]
      rw [if_neg (by decide), if_pos (by decide), if_pos (by decide)]
    rw [api_seat_post_reduce db tid hact _ rfl, hbay, hrule]
  · have hrule : neighbor_rule_ok db.seats tid 3 "bay" true = (true, "") := by
      unfold neighbor_rule_ok
      simp only [hnb3, hfind, hg]
      rw [if_neg (by decide), if_pos (by decide), if_neg (by simp)]
    rw [api_seat_post_reduce db tid hact _ rfl, hbay, hrule]
    rfl
  · intro hp
    have hrule : neighbor_rule_ok db.seats tid 3 "bay" false = (true, "") := by
      unfold neighbor_rule_ok
      simp only [hnb3, hfind, hg, hp]
      rw [if_neg (by decide), if_pos (by decide), if_neg (by simp)]
    rw [api_seat_post_reduce db tid hact _ rfl, hbay, hrule]
    rfl
  · intro n g p hn
    have hrule : neighbor_rule_ok db.seats tid n (norm_gender g) p = (true, "") := by
      unfold neighbor_rule_ok
      simp only [hn]
    rw [api_seat_post_reduce db tid hact _ rfl, hrule]
    rfl
  · intro n p
    rw [api_seat_post_reduce db tid hact _ rfl,
      (by decide : norm_gender "" = ""), neighbor_rule_ok_of_no_gender]
    rfl
  · intro n nb g p hn hempty
    have hrule : neighbor_rule_ok db.seats tid n (norm_gender g) p = (true, "") := by
      unfold neighbor_rule_ok
      simp only [hn, hempty]
      by_cases hc : nb = 0 ∨ norm_gender g = ""
      · rw [if_pos hc]
      · rw [if_neg hc]
    rw [api_seat_post_reduce db tid hact _ rfl, hrule]
    rfl

/-- Seat 4 of the example trip, recorded "bayan" without the exception flag. -/
def exampleSeat4 : SeatRow := ⟨1, 4, "", "biletsiz", "nakit", 0, "bayan", false, false, ""⟩

/-- Database with one active trip whose seat 4 holds `exampleSeat4`. -/
def exampleSeatDB : DB :=
  { trips := [⟨1, "2025-01-01", "Denizli – İstanbul", "10:00", "20ABC123", "k1", "k2", "h", ""⟩],
    seats := [exampleSeat4],
    walk_on_sales := [], consignments := [], consignment_photos := [],
    routes := [], fares := [], active_trip_id := some 1 }

/-- C2 witness: the seat-rule theorem instantiated on the concrete database
with seat 4 occupied by "bayan" and no exception flags. -/
theorem seat_pair_rule_witness :
    (exampleSeat4.pair_ok = false →
       ∃ msg, api_seat_post exampleSeatDB ⟨3, "", "", "", 0, "bay", false, false, ""⟩ =
         .error msg ∧ msg ≠ "")
    ∧ is_ok (api_seat_post exampleSeatDB ⟨3, "", "", "", 0, "bay", true, false, ""⟩) = true
    ∧ (exampleSeat4.pair_ok = true →
       is_ok (api_seat_post exampleSeatDB ⟨3, "", "", "", 0, "bay", false, false, ""⟩) = true)
    ∧ (∀ n g p, neighbors_get n = none →
       is_ok (api_seat_post exampleSeatDB ⟨n, "", "", "", 0, g, p, false, ""⟩) = true)
    ∧ (∀ n p, is_ok (api_seat_post exampleSeatDB ⟨n, "", "", "", 0, "", p, false, ""⟩) = true)
    ∧ (∀ n nb g p, neighbors_get n = some nb →
         find_seat exampleSeatDB.seats 1 nb = none →
       is_ok (api_seat_post exampleSeatDB ⟨n, "", "", "", 0, g, p, false, ""⟩) = true) :=
  seat_pair_rule exampleSeatDB 1 rfl exampleSeat4 rfl (by decide) "" "" "" 0 false

/-- `end_trip` from `app.py`: delete the active trip's seat and walk-on rows
and clear the `app_state` singleton; with no active trip just clear it. -/
def end_trip (db : DB) : DB :=
  match db.active_trip_id with
  | some tid =>
    { db with
      seats := db.seats.filter (fun s => !(s.trip_id == tid)),
      walk_on_sales := db.walk_on_sales.filter (fun w => !(w.trip_id == tid)),
      active_trip_id := none }
  | none => { db with active_trip_id := none }

/-- C3: ending the active trip deletes exactly that trip's seat and walk-on
rows and clears the active-trip singleton, while the trips, consignments,
consignment-photo, route and fare tables are untouched. -/
theorem end_trip_effect (db : DB) (tid : Nat) (hact : db.active_trip_id = some tid) :
    ((end_trip db).active_trip_id = none)
    ∧ (∀ s ∈ (end_trip db).seats, s.trip_id ≠ tid)
    ∧ (∀ w ∈ (end_trip db).walk_on_sales, w.trip_id ≠ tid)
    ∧ (∀ s ∈ db.seats, s.trip_id ≠ tid → s ∈ (end_trip db).seats)
    ∧ (∀ w ∈ db.walk_on_sales, w.trip_id ≠ tid → w ∈ (end_trip db).walk_on_sales)
    ∧ (end_trip db).trips = db.trips
    ∧ (end_trip db).consignments = db.consignments
    ∧ (end_trip db).consignment_photos = db.consignment_photos := by
  have h1 : end_trip db =
      { db with
        seats := db.seats.filter (fun s => !(s.trip_id == tid)),
        walk_on_sales := db.walk_on_sales.filter (fun w => !(w.trip_id == tid)),
        active_trip_id := none } := by
    unfold end_trip
    rw [hact]
  rw [h1]
  refine ⟨rfl, ?_, ?_, ?_, ?_, rfl, rfl, rfl⟩
  · intro s hs
    simp only [List.mem_filter, Bool.not_eq_eq_eq_not, Bool.not_true, beq_eq_false_iff_ne] at hs
    exact hs.2
  · intro w hw
    simp only [List.mem_filter, Bool.not_eq_eq_eq_not, Bool.not_true, beq_eq_false_iff_ne] at hw
    exact hw.2
  · intro s hs hne
    simp only [List.mem_filter, Bool.not_eq_eq_eq_not, Bool.not_true, beq_eq_false_iff_ne]
    exact ⟨hs, hne⟩
  · intro w hw hne
    simp only [List.mem_filter, Bool.not_eq_eq_eq_not, Bool.not_true, beq_eq_false_iff_ne]
    exact ⟨hw, hne⟩

/-- Database for the C3 witness: one active trip plus a second historic trip,
each with a seat and a walk-on row, and a consignment on the active trip. -/
def exampleEndDB : DB :=
  { trips := [⟨1, "2025-01-01", "Denizli – İstanbul", "10:00", "20ABC123", "k1", "k2", "h", ""⟩,
              ⟨2, "2025-01-02", "Denizli – İzmir", "11:00", "20ABC124", "k1", "k2", "h", ""⟩],
    seats := [⟨1, 5, "", "biletli", "nakit", 100, "bay", false, false, ""⟩,
              ⟨2, 7, "", "biletli", "nakit", 80, "bayan", false, false, ""⟩],
    walk_on_sales := [⟨1, 1, "a", "b", 2, 10, 20, "nakit", ""⟩,
                      ⟨2, 2, "c", "d", 1, 15, 15, "nakit", ""⟩],
    consignments := [⟨1, 1, "EM001", "a", "b", 50, "nakit", "bekliyor"⟩],
    consignment_photos := [⟨1, 1, "pickup", "c1_a.jpg", "image/jpeg", 100⟩],
    routes := [], fares := [], active_trip_id := some 1 }

/-- C3 witness: the end-trip theorem instantiated on the concrete database. -/
theorem end_trip_effect_witness :
    ((end_trip exampleEndDB).active_trip_id = none)
    ∧ (∀ s ∈ (end_trip exampleEndDB).seats, s.trip_id ≠ 1)
    ∧ (∀ w ∈ (end_trip exampleEndDB).walk_on_sales, w.trip_id ≠ 1)
    ∧ (∀ s ∈ exampleEndDB.seats, s.trip_id ≠ 1 → s ∈ (end_trip exampleEndDB).seats)
    ∧ (∀ w ∈ exampleEndDB.walk_on_sales, w.trip_id ≠ 1 → w ∈ (end_trip exampleEndDB).walk_on_sales)
    ∧ (end_trip exampleEndDB).trips = exampleEndDB.trips
    ∧ (end_trip exampleEndDB).consignments = exampleEndDB.consignments
    ∧ (end_trip exampleEndDB).consignment_photos = exampleEndDB.consignment_photos :=
  end_trip_effect exampleEndDB 1 rfl

/-- The upload directory on disk: the set of file paths currently present. -/
structure FS where
  files : List String
deriving Repr, DecidableEq

/-- Python `Path.unlink(missing_ok=True)`: remove the path if present; a
missing file is a no-op, never an error. -/
def unlink_missing_ok (fs : FS) (path : String) : FS :=
  ⟨fs.files.filter (fun p => !(p == path))⟩

/-- `api_cons_delete` from `app.py`: with an active trip, unlink every photo
file of consignment `cid` (ignoring missing files), delete all of its photo
rows, and delete the consignment row only when it belongs to the active trip.
Returns the updated database, the updated filesystem, and the `ok` flag. -/
def api_cons_delete (db : DB) (fs : FS) (cid : Nat) : DB × FS × Bool :=
  match db.active_trip_id with
  | none => (db, fs, false)
  | some tid =>
    let photos := db.consignment_photos.filter (fun p => p.consignment_id == cid)
    let fs1 := photos.foldl (fun acc p => unlink_missing_ok acc p.file_path) fs
    let db1 := { db with
      consignment_photos := db.consignment_photos.filter (fun p => !(p.consignment_id == cid)),
      consignments := db.consignments.filter (fun c => !(c.id == cid && c.trip_id == tid)) }
    (db1, fs1, true)

/-- A path survives the photo-unlink fold exactly when it was present before
and is not the file of any of the unlinked photo rows. -/
theorem mem_foldl_unlink (photos : List PhotoRow) :
    ∀ (fs : FS) (f : String),
      (f ∈ (photos.foldl (fun acc p => unlink_missing_ok acc p.file_path) fs).files ↔
        (f ∈ fs.files ∧ ∀ p ∈ photos, p.file_path ≠ f)) := by
  induction photos with
  | nil =>
    intro fs f
    simp
  | cons p ps ih =>
    intro fs f
    rw [List.foldl_cons, ih]
    unfold unlink_missing_ok
    simp only [List.mem_filter, Bool.not_eq_eq_eq_not, Bool.not_true, beq_eq_false_iff_ne,
      List.forall_mem_cons]
    constructor
    · rintro ⟨⟨hmem, hne⟩, hall⟩
      exact ⟨hmem, fun h => hne h.symm, hall⟩
    · rintro ⟨hmem, hne, hall⟩
      exact ⟨⟨hmem, fun h => hne h.symm⟩, hall⟩

/-- C6: deleting a consignment with exactly two photo rows removes both
referenced files from disk (presence of the files is never required — a
missing file is a no-op, and the operation still reports success), deletes
both photo rows, keeps the other photo rows, and touches no unrelated file. -/
theorem cons_delete_two_photos (db : DB) (fs : FS) (tid cid : Nat)
    (hact : db.active_trip_id = some tid) (p1 p2 : PhotoRow)
    (hph : db.consignment_photos.filter (fun p => p.consignment_id == cid) = [p1, p2]) :
    (api_cons_delete db fs cid).2.2 = true
    ∧ p1.file_path ∉ (api_cons_delete db fs cid).2.1.files
    ∧ p2.file_path ∉ (api_cons_delete db fs cid).2.1.files
    ∧ (∀ p ∈ (api_cons_delete db fs cid).1.consignment_photos, p.consignment_id ≠ cid)
    ∧ (∀ p ∈ db.consignment_photos, p.consignment_id ≠ cid →
        p ∈ (api_cons_delete db fs cid).1.consignment_photos)
    ∧ (∀ f ∈ fs.files, f ≠ p1.file_path → f ≠ p2.file_path →
        f ∈ (api_cons_delete db fs cid).2.1.files) := by
  simp only [api_cons_delete, hact, hph]
  refine ⟨trivial, ?_, ?_, ?_, ?_, ?_⟩
  · rw [mem_foldl_unlink]
    rintro ⟨-, hall⟩
    exact hall p1 (List.mem_cons_self p1 [p2]) rfl
  · rw [mem_foldl_unlink]
    rintro ⟨-, hall⟩
    exact hall p2 (List.mem_cons_of_mem p1 (List.mem_cons_self p2 [])) rfl
  · intro p hp
    simp only [List.mem_filter, Bool.not_eq_eq_eq_not, Bool.not_true, beq_eq_false_iff_ne] at hp
    exact hp.2
  · intro p hp hne
    simp only [List.mem_filter, Bool.not_eq_eq_eq_not, Bool.not_true, beq_eq_false_iff_ne]
    exact ⟨hp, hne⟩
  · intro f hf h1 h2
    rw [mem_foldl_unlink]
    refine ⟨hf, ?_⟩
    intro p hp
    rcases List.mem_cons.mp hp with h | h
    · subst h
      exact fun he => h1 he.symm
    · rcases List.mem_cons.mp h with h0 | h0
      · subst h0
        exact fun he => h2 he.symm
      · cases h0

/-- Data for the C6 witness: consignment 1 on the active trip has two photo
rows; the first file is present on disk, the second is already missing. -/
def examplePhoto1 : PhotoRow := ⟨1, 1, "pickup", "c1_a.jpg", "image/jpeg", 100⟩

/-- Second photo row of consignment 1 for the C6 witness. -/
def examplePhoto2 : PhotoRow := ⟨2, 1, "delivery", "c1_b.jpg", "image/jpeg", 200⟩

/-- Photo row of the unrelated consignment 2 for the C6 witness. -/
def examplePhoto3 : PhotoRow := ⟨3, 2, "pickup", "c2_a.jpg", "image/jpeg", 300⟩

/-- Database for the C6 witness. -/
def exampleConsDB : DB :=
  { trips := [⟨1, "2025-01-01", "Denizli – İstanbul", "10:00", "20ABC123", "k1", "k2", "h", ""⟩],
    seats := [], walk_on_sales := [],
    consignments := [⟨1, 1, "EM001", "a", "b", 50, "nakit", "bekliyor"⟩,
                     ⟨2, 1, "EM002", "a", "b", 60, "nakit", "bekliyor"⟩],
    consignment_photos := [examplePhoto1, examplePhoto2, examplePhoto3],
    routes := [], fares := [], active_trip_id := some 1 }

/-- Disk contents for the C6 witness: `examplePhoto2.file_path` is missing. -/
def exampleConsFS : FS := ⟨["c1_a.jpg", "c2_a.jpg", "other.txt"]⟩

/-- C6 witness: the consignment-delete theorem on the concrete database where
one of the two photo files is already absent from disk. -/
theorem cons_delete_two_photos_witness :
    (api_cons_delete exampleConsDB exampleConsFS 1).2.2 = true
    ∧ examplePhoto1.file_path ∉ (api_cons_delete exampleConsDB exampleConsFS 1).2.1.files
    ∧ examplePhoto2.file_path ∉ (api_cons_delete exampleConsDB exampleConsFS 1).2.1.files
    ∧ (∀ p ∈ (api_cons_delete exampleConsDB exampleConsFS 1).1.consignment_photos,
        p.consignment_id ≠ 1)
    ∧ (∀ p ∈ exampleConsDB.consignment_photos, p.consignment_id ≠ 1 →
        p ∈ (api_cons_delete exampleConsDB exampleConsFS 1).1.consignment_photos)
    ∧ (∀ f ∈ exampleConsFS.files, f ≠ examplePhoto1.file_path → f ≠ examplePhoto2.file_path →
        f ∈ (api_cons_delete exampleConsDB exampleConsFS 1).2.1.files) :=
  cons_delete_two_photos exampleConsDB exampleConsFS 1 1 rfl examplePhoto1 examplePhoto2
    (by decide)

/-- C9: deleting a consignment that belongs to another trip than the active
one still unlinks all of its photo files and deletes all of its photo rows,
while the consignment row itself survives the trip-guarded delete. -/
theorem cons_delete_foreign_trip (db : DB) (fs : FS) (tid cid : Nat)
    (hact : db.active_trip_id = some tid)
    (c : Consignment) (hc : c ∈ db.consignments) (hid : c.id = cid) (htrip : c.trip_id ≠ tid) :
    (api_cons_delete db fs cid).2.2 = true
    ∧ c ∈ (api_cons_delete db fs cid).1.consignments
    ∧ (∀ p ∈ (api_cons_delete db fs cid).1.consignment_photos, p.consignment_id ≠ cid)
    ∧ (∀ p ∈ db.consignment_photos, p.consignment_id = cid →
        p.file_path ∉ (api_cons_delete db fs cid).2.1.files) := by
  simp only [api_cons_delete, hact]
  refine ⟨trivial, ?_, ?_, ?_⟩
  · refine List.mem_filter.mpr ⟨hc, ?_⟩
    simp only [Bool.not_eq_eq_eq_not, Bool.not_true, Bool.and_eq_false_iff, beq_eq_false_iff_ne]
    exact Or.inr htrip
  · intro p hp
    simp only [List.mem_filter, Bool.not_eq_eq_eq_not, Bool.not_true, beq_eq_false_iff_ne] at hp
    exact hp.2
  · intro p hp hpid
    rw [mem_foldl_unlink]
    rintro ⟨-, hall⟩
    exact hall p (List.mem_filter.mpr ⟨hp, by simp [hpid]⟩) rfl

/-- Database for the C9 witness: consignment 7 belongs to trip 2 while trip 1
is active; it owns one photo row whose file is on disk. -/
def exampleForeignDB : DB :=
  { trips := [⟨1, "2025-01-01", "Denizli – İstanbul", "10:00", "20ABC123", "k1", "k2", "h", ""⟩,
              ⟨2, "2025-01-02", "Denizli – İzmir", "11:00", "20ABC124", "k1", "k2", "h", ""⟩],
    seats := [], walk_on_sales := [],
    consignments := [⟨7, 2, "EM007", "a", "b", 50, "nakit", "bekliyor"⟩],
    consignment_photos := [⟨1, 7, "pickup", "c7_a.jpg", "image/jpeg", 100⟩],
    routes := [], fares := [], active_trip_id := some 1 }

/-- C9 witness: the foreign-trip delete theorem on the concrete database. -/
theorem cons_delete_foreign_trip_witness :
    (api_cons_delete exampleForeignDB ⟨["c7_a.jpg"]⟩ 7).2.2 = true
    ∧ (⟨7, 2, "EM007", "a", "b", 50, "nakit", "bekliyor"⟩ : Consignment) ∈
        (api_cons_delete exampleForeignDB ⟨["c7_a.jpg"]⟩ 7).1.consignments
    ∧ (∀ p ∈ (api_cons_delete exampleForeignDB ⟨["c7_a.jpg"]⟩ 7).1.consignment_photos,
        p.consignment_id ≠ 7)
    ∧ (∀ p ∈ exampleForeignDB.consignment_photos, p.consignment_id = 7 →
        p.file_path ∉ (api_cons_delete exampleForeignDB ⟨["c7_a.jpg"]⟩ 7).2.1.files) :=
  cons_delete_foreign_trip exampleForeignDB ⟨["c7_a.jpg"]⟩ 1 7 rfl
    ⟨7, 2, "EM007", "a", "b", 50, "nakit", "bekliyor"⟩ (by decide) rfl (by decide)

/-- `ALLOWED_IMAGE_EXTS` from `app.py`. -/
def ALLOWED_IMAGE_EXTS : List String := [".jpg", ".jpeg", ".png", ".webp"]

/-- `ALLOWED_IMAGE_MIMES` from `app.py`. -/
def ALLOWED_IMAGE_MIMES : List String := ["image/jpeg", "image/png", "image/webp"]

/-- The characters after the last dot of a filename (Python
`filename.rsplit(".", 1)[1]` when a dot is present). -/
def after_last_dot (l : List Char) : List Char :=
  (l.reverse.takeWhile (fun c => c ≠ '.')).reverse

/-- `_allowed_file` from `app.py`: require a dot and an extension on the
image allow-list. -/
def allowed_file (filename : String) : Bool :=
  if filename = "" ∨ ¬ filename.data.contains '.' then false
  else ALLOWED_IMAGE_EXTS.contains
    (py_lower (String.mk ('.' :: after_last_dot filename.data)))

/-- Outcome of an upload request: rejected with a message, or saved with the
given filename extension. -/
inductive UploadResult
  | rejected (msg : String)
  | saved (ext : String)
deriving Repr, DecidableEq

/-- The validation prefix of the POST branch of `api_cons_photos` from
`app.py`: a missing filename, a disallowed extension, or a disallowed MIME
type is rejected before anything is written to disk; otherwise the file is
saved under a name carrying the lowercased original extension. -/
def api_cons_photos_post (filename mimetype : String) : UploadResult :=
  if filename = "" then .rejected "Dosya gerekli"
  else if !(allowed_file filename) then .rejected "İzin verilmeyen dosya türü"
  else if !(ALLOWED_IMAGE_MIMES.contains mimetype) then .rejected "Desteklenmeyen MIME türü"
  else .saved (py_lower (String.mk (after_last_dot filename.data)))

/-- Python `os.path.splitext(p)[1]` for a bare filename: the suffix starting
at the last dot, unless every character before that dot is itself a dot. -/
def splitext_ext (fn : String) : String :=
  let l := fn.data
  if l.contains '.' then
    let tail := after_last_dot l
    let base := l.take (l.length - tail.length - 1)
    if base.any (fun c => c ≠ '.') then String.mk ('.' :: tail) else ""
  else ""

/-- The `safe` sanitizer of the bags module (ASCII reading of Python
`isalnum`). -/
def safe_bags (s : String) : String :=
  String.mk (s.data.filter (fun c => c.isAlphanum ∨ c = '-' ∨ c = '_'))

/-- The per-file save step of the POST branches of the bags `gallery` and
`capture` endpoints: a file with an empty name is skipped, and every other
file is saved unconditionally — no extension or MIME allow-list check — under
a name ending in the lowercased original extension, defaulting to ".jpg". -/
def bags_save_name (side : String) (bag_count ts : Nat) (dest : String)
    (filename : String) : Option String :=
  if filename = "" then none
  else
    let e := splitext_ext filename
    let ext := py_lower (if e = "" then ".jpg" else e)
    let sfx := safe_bags dest
    some (side ++ toString bag_count ++ "_" ++ toString ts ++ "_" ++
      (if sfx = "" then "bag" else sfx) ++ ext)

/-- True exactly on the rejection constructor of an upload result. -/
def is_rejected (r : UploadResult) : Bool :=
  match r with
  | .rejected _ => true
  | .saved _ => false

/-- C5 counterexample: a baggage-photo upload named "evil.exe" — whose
extension is outside the image allow-list and which `_allowed_file` would
reject — is saved (not rejected) by the bags capture/gallery save step, so
not every upload path validates against the allow-list. -/
theorem upload_validation_counterexample :
    allowed_file "evil.exe" = false
    ∧ ALLOWED_IMAGE_EXTS.contains ".exe" = false
    ∧ bags_save_name "R" 1 0 "x" "evil.exe" = some "R1_0_x.exe" := by decide

/-- C5 amended: the consignment-evidence upload validates the filename
extension and the reported MIME type against the fixed allow-lists and
rejects offenders before saving, while the baggage-photo endpoints perform
no allow-list validation and save every file with a non-empty name. -/
theorem upload_validation (filename mimetype : String) :
    (allowed_file filename = false →
      is_rejected (api_cons_photos_post filename mimetype) = true)
    ∧ (ALLOWED_IMAGE_MIMES.contains mimetype = false →
      is_rejected (api_cons_photos_post filename mimetype) = true)
    ∧ (allowed_file filename = true → ALLOWED_IMAGE_MIMES.contains mimetype = true →
      is_rejected (api_cons_photos_post filename mimetype) = false)
    ∧ (∀ side bc ts dest, filename ≠ "" →
      (bags_save_name side bc ts dest filename).isSome = true) := by
  refine ⟨?_, ?_, ?_, ?_⟩
  · intro hext
    unfold api_cons_photos_post
    by_cases h0 : filename = ""
    · rw [if_pos h0]
      rfl
    · rw [if_neg h0, if_pos (by rw [hext]; rfl)]
      rfl
  · intro hmime
    unfold api_cons_photos_post
    by_cases h0 : filename = ""
    · rw [if_pos h0]
      rfl
    · rw [if_neg h0]
      by_cases h1 : allowed_file filename
      · rw [if_neg (by rw [h1]; simp), if_pos (by rw [hmime]; rfl)]
        rfl
      · rw [if_pos (by rw [Bool.eq_false_iff.mpr h1]; rfl)]
        rfl
  · intro hext hmime
    have h0 : filename ≠ "" := by
      intro he
      rw [he] at hext
      exact absurd hext (by decide)
    unfold api_cons_photos_post
    rw [if_neg h0, if_neg (by rw [hext]; simp), if_neg (by rw [hmime]; simp)]
    rfl
  · intro side bc ts dest h0
    unfold bags_save_name
    rw [if_neg h0]
    rfl

/-- C5 witness: rejection of a bad extension and of a bad MIME type,
acceptance of a valid image, and the unchecked baggage save, all on concrete
inputs. -/
theorem upload_validation_witness :
    is_rejected (api_cons_photos_post "evil.exe" "image/jpeg") = true
    ∧ is_rejected (api_cons_photos_post "a.jpg" "text/plain") = true
    ∧ is_rejected (api_cons_photos_post "a.jpg" "image/jpeg") = false
    ∧ (bags_save_name "R" 1 0 "x" "evil.exe").isSome = true :=
  ⟨(upload_validation "evil.exe" "image/jpeg").1 (by decide),
   (upload_validation "a.jpg" "text/plain").2.1 (by decide),
   (upload_validation "a.jpg" "image/jpeg").2.2.1 (by decide) (by decide),
   (upload_validation "evil.exe" "image/jpeg").2.2.2 "R" 1 0 "x" (by decide)⟩

/-- `CACHE_TTL_S` from `speedlimit.py` (seconds). -/
def CACHE_TTL_S : Rat := 600

/-- `BUCKET_DEG` from `speedlimit.py` (degrees, about 100 m). -/
def BUCKET_DEG : Rat := 1 / 1000

/-- `get_bucket` from `speedlimit.py`. Python rounds floats with
banker's rounding; the model uses mathematical rounding on rationals — the
claims only depend on two coordinates landing in the same bucket. -/
def get_bucket (lat lng : Rat) : Rat × Rat :=
  ((round (lat / BUCKET_DEG) : Int) * BUCKET_DEG, (round (lng / BUCKET_DEG) : Int) * BUCKET_DEG)

/-- One entry of the in-memory `CACHE` dictionary. -/
structure CacheEntry where
  ts : Rat
  limit : Int
  highway : String
  source : String
deriving Repr, DecidableEq

/-- The in-memory `CACHE` dictionary keyed by coordinate bucket. -/
structure SpeedState where
  cache : List ((Rat × Rat) × CacheEntry)
deriving Repr, DecidableEq

/-- `CACHE.get(bucket)`. -/
def cache_get (st : SpeedState) (k : Rat × Rat) : Option CacheEntry :=
  (st.cache.find? (fun e => decide (e.1 = k))).map (fun e => e.2)

/-- `CACHE[bucket] = item` (dictionary overwrite). -/
def cache_put (st : SpeedState) (k : Rat × Rat) (v : CacheEntry) : SpeedState :=
  ⟨(k, v) :: st.cache.filter (fun e => !(decide (e.1 = k)))⟩

/-- `fallback_limit_by_highway` from `speedlimit.py`. -/
def fallback_limit_by_highway (hw : String) : Int :=
  let h := py_lower hw
  if h = "motorway" ∨ h = "trunk" then 120
  else if h = "primary" ∨ h = "secondary" ∨ h = "tertiary" then 90
  else if h = "residential" ∨ h = "living_street" ∨ h = "service" then 50
  else 90

/-- Remove every occurrence of `sub` from `l` (Python `str.replace(sub, "")`). -/
def remove_sub (sub : List Char) : List Char → List Char
  | [] => []
  | c :: rest =>
    if h : sub ≠ [] ∧ sub.isPrefixOf (c :: rest) then
      remove_sub sub ((c :: rest).drop sub.length)
    else
      c :: remove_sub sub rest
  termination_by l => l.length
  decreasing_by
    · simp only [List.length_drop]
      have : sub.length ≠ 0 := fun h0 => h.1 (List.length_eq_zero.mp h0)
      simp only [List.length_cons]
      omega
    · simp only [List.length_cons]
      omega

/-- Decimal digits to a natural number. -/
def digits_to_nat (l : List Char) : Nat :=
  l.foldl (fun acc c => acc * 10 + (c.toNat - '0'.toNat)) 0

/-- `parse_maxspeed` from `speedlimit.py`, for integer-valued tags: strip and
lowercase, drop "km/h" / "kph" / spaces, fail when no digit is present, and
read the remaining digit string (Python additionally accepts and rounds
float-valued tags, which no claim exercises). -/
def parse_maxspeed (val : String) : Option Int :=
  let s := remove_sub " ".data (remove_sub "kph".data
    (remove_sub "km/h".data (py_lower (py_strip val)).data))
  if s.any (fun c => c.isDigit) then
    if s ≠ [] ∧ s.all (fun c => c.isDigit) then some (digits_to_nat s) else none
  else none

/-- The tag dictionary returned by `overpass_query` (`tags.get(k)`). -/
def tags_get (tags : List (String × String)) (k : String) : Option String :=
  (tags.find? (fun e => e.1 == k)).map (fun e => e.2)

/-- JSON payload of a reply from `/api/speedlimit`. -/
structure SpeedReply where
  ok : Bool
  limit : Int
  highway : String
  source : String
  from_cache : Bool
  ttl : Int
deriving Repr, DecidableEq

/-- The cache-miss path of `api_speedlimit`: query upstream (an exception
falls back to an empty tag set), parse the maxspeed tag, fall back to the
highway-class default when it is missing or zero, store the entry, and reply
with `from_cache := false`. -/
def api_speedlimit_miss (upstream : Rat → Rat → Except Unit (List (String × String)))
    (st : SpeedState) (now lat lng : Rat) (bucket : Rat × Rat) :
    SpeedReply × SpeedState :=
  let tags := match upstream lat lng with
    | .ok t => t
    | .error _ => []
  let highway := py_lower ((tags_get tags "highway").getD "")
  let limit0 := parse_maxspeed ((tags_get tags "maxspeed").getD "")
  let falsy := limit0.getD 0 = 0
  let limit := if falsy then fallback_limit_by_highway highway else limit0.getD 0
  let source : String := if falsy then "fallback" else "osm:maxspeed"
  ({ ok := true, limit := limit, highway := highway, source := source,
     from_cache := false, ttl := CACHE_TTL_S.floor },
   cache_put st bucket ⟨now, limit, highway, source⟩)

/-- `api_speedlimit` from `speedlimit.py`: serve from the cache while the
entry is younger than the TTL, otherwise take the miss path.  Wall-clock time
is the explicit `now` argument and the upstream service an explicit oracle. -/
def api_speedlimit (upstream : Rat → Rat → Except Unit (List (String × String)))
    (st : SpeedState) (now lat lng : Rat) : SpeedReply × SpeedState :=
  let bucket := get_bucket lat lng
  match cache_get st bucket with
  | some c =>
    if now - c.ts < CACHE_TTL_S then
      ({ ok := true, limit := c.limit, highway := c.highway, source := c.source,
         from_cache := true, ttl := (CACHE_TTL_S - (now - c.ts)).floor }, st)
    else api_speedlimit_miss upstream st now lat lng bucket
  | none => api_speedlimit_miss upstream st now lat lng bucket

/-- Looking a key up right after storing it finds the stored entry. -/
theorem cache_get_put (st : SpeedState) (k : Rat × Rat) (v : CacheEntry) :
    cache_get (cache_put st k v) k = some v := by
  unfold cache_get cache_put
  simp [List.find?]

/-- The miss path returns some limit/highway/source triple, caches exactly
that triple stamped `now`, and replies `from_cache := false`. -/
theorem api_speedlimit_miss_spec (upstream : Rat → Rat → Except Unit (List (String × String)))
    (st : SpeedState) (now lat lng : Rat) (bucket : Rat × Rat) :
    ∃ L H S,
      api_speedlimit_miss upstream st now lat lng bucket =
        ({ ok := true, limit := L, highway := H, source := S,
           from_cache := false, ttl := CACHE_TTL_S.floor },
         cache_put st bucket ⟨now, L, H, S⟩) :=
  ⟨_, _, _, rfl⟩

/-- C8: when a bucket is uncached, a first query at `now1` followed by a
second query for the same bucket at `now2` with `now2 - now1` under the TTL
answers the second from the cache: `from_cache = true`, the cached
limit/highway/source equal to those of the first reply, the cache state
unchanged, and the second upstream oracle (quantified independently) never
consulted. -/
theorem speedlimit_cache_hit
    (up1 up2 : Rat → Rat → Except Unit (List (String × String)))
    (st : SpeedState) (now1 now2 lat1 lng1 lat2 lng2 : Rat)
    (hb : get_bucket lat2 lng2 = get_bucket lat1 lng1)
    (hmiss : cache_get st (get_bucket lat1 lng1) = none)
    (httl : now2 - now1 < CACHE_TTL_S) :
    (api_speedlimit up2 (api_speedlimit up1 st now1 lat1 lng1).2 now2 lat2 lng2).1.from_cache
        = true
    ∧ (api_speedlimit up2 (api_speedlimit up1 st now1 lat1 lng1).2 now2 lat2 lng2).1.ok = true
    ∧ (api_speedlimit up2 (api_speedlimit up1 st now1 lat1 lng1).2 now2 lat2 lng2).1.limit
        = (api_speedlimit up1 st now1 lat1 lng1).1.limit
    ∧ (api_speedlimit up2 (api_speedlimit up1 st now1 lat1 lng1).2 now2 lat2 lng2).1.highway
        = (api_speedlimit up1 st now1 lat1 lng1).1.highway
    ∧ (api_speedlimit up2 (api_speedlimit up1 st now1 lat1 lng1).2 now2 lat2 lng2).1.source
        = (api_speedlimit up1 st now1 lat1 lng1).1.source
    ∧ (api_speedlimit up2 (api_speedlimit up1 st now1 lat1 lng1).2 now2 lat2 lng2).2
        = (api_speedlimit up1 st now1 lat1 lng1).2 := by
  obtain ⟨L, H, S, hm⟩ := api_speedlimit_miss_spec up1 st now1 lat1 lng1 (get_bucket lat1 lng1)
  have h1 : api_speedlimit up1 st now1 lat1 lng1 =
      ({ ok := true, limit := L, highway := H, source := S, from_cache := false,
         ttl := CACHE_TTL_S.floor },
       cache_put st (get_bucket lat1 lng1) ⟨now1, L, H, S⟩) := by
    simp only [api_speedlimit, hmiss]
    exact hm
  have h2 : api_speedlimit up2 (cache_put st (get_bucket lat1 lng1) ⟨now1, L, H, S⟩)
        now2 lat2 lng2 =
      ({ ok := true, limit := L, highway := H, source := S, from_cache := true,
         ttl := (CACHE_TTL_S - (now2 - now1)).floor },
       cache_put st (get_bucket lat1 lng1) ⟨now1, L, H, S⟩) := by
    simp only [api_speedlimit, hb, cache_get_put]
    rw [if_pos httl]
  rw [h1, h2]
  exact ⟨rfl, rfl, rfl, rfl, rfl, rfl⟩

/-- Upstream oracle for the C8 witness: a motorway with a posted limit. -/
def exampleUpstream : Rat → Rat → Except Unit (List (String × String)) :=
  fun _ _ => .ok [("highway", "motorway"), ("maxspeed", "110")]

/-- Failing upstream oracle for the C8 witness's second call: every endpoint
down; the cached reply must not depend on it. -/
def exampleUpstreamDown : Rat → Rat → Except Unit (List (String × String)) :=
  fun _ _ => .error ()

/-- C8 witness: the cache-hit theorem on concrete coordinates, an empty
cache, times 0 and 100 seconds, and a second oracle that always fails. -/
theorem speedlimit_cache_hit_witness :
    (api_speedlimit exampleUpstreamDown
        (api_speedlimit exampleUpstream ⟨[]⟩ 0 38 29).2 100 38 29).1.from_cache = true
    ∧ (api_speedlimit exampleUpstreamDown
        (api_speedlimit exampleUpstream ⟨[]⟩ 0 38 29).2 100 38 29).1.ok = true
    ∧ (api_speedlimit exampleUpstreamDown
        (api_speedlimit exampleUpstream ⟨[]⟩ 0 38 29).2 100 38 29).1.limit
      = (api_speedlimit exampleUpstream ⟨[]⟩ 0 38 29).1.limit
    ∧ (api_speedlimit exampleUpstreamDown
        (api_speedlimit exampleUpstream ⟨[]⟩ 0 38 29).2 100 38 29).1.highway
      = (api_speedlimit exampleUpstream ⟨[]⟩ 0 38 29).1.highway
    ∧ (api_speedlimit exampleUpstreamDown
        (api_speedlimit exampleUpstream ⟨[]⟩ 0 38 29).2 100 38 29).1.source
      = (api_speedlimit exampleUpstream ⟨[]⟩ 0 38 29).1.source
    ∧ (api_speedlimit exampleUpstreamDown
        (api_speedlimit exampleUpstream ⟨[]⟩ 0 38 29).2 100 38 29).2
      = (api_speedlimit exampleUpstream ⟨[]⟩ 0 38 29).2 :=
  speedlimit_cache_hit exampleUpstream exampleUpstreamDown ⟨[]⟩ 0 100 38 29 38 29
    rfl rfl (by norm_num [CACHE_TTL_S])

/-- Fares for the C10 counterexample: the Denizli otogar → Sarayköy segment
priced only under the built-in route name. -/
def c10Fares : List FareRow := [⟨"Denizli – İstanbul", "Denizli otogar", "Sarayköy", 100⟩]

/-- C10 counterexample: the unknown route name "Hayali Hat" does fall back to
the built-in Denizli – İstanbul stop list, but fare quoting does NOT behave
exactly as if the route were Denizli – İstanbul: fare rows are looked up
under the unknown name itself, so the same quote succeeds for the built-in
name and fails "segment-missing" for the unknown one. -/
theorem unknown_route_quote_counterexample :
    get_stops [] "Hayali Hat" = denizliIstanbulStops
    ∧ quote_price_segmented [] c10Fares "Denizli – İstanbul" "Denizli otogar" "Sarayköy"
        = (some 100, "direct")
    ∧ quote_price_segmented [] c10Fares "Hayali Hat" "Denizli otogar" "Sarayköy"
        = (none, "segment-missing")
    ∧ quote_price_segmented [] c10Fares "Hayali Hat" "Denizli otogar" "Sarayköy"
        ≠ quote_price_segmented [] c10Fares "Denizli – İstanbul" "Denizli otogar" "Sarayköy"
    := by
  have h3 : quote_price_segmented [] c10Fares "Hayali Hat" "Denizli otogar" "Sarayköy"
      = (none, "segment-missing") := by
    rw [quote_price_segmented_of_mem [] c10Fares "Hayali Hat" "Denizli otogar" "Sarayköy"
      (by decide) (by decide)]
    simp only [show (list_stops_for_route [] "Hayali Hat").indexOf "Denizli otogar" = 0
        by decide,
      show (list_stops_for_route [] "Hayali Hat").indexOf "Sarayköy" = 1 by decide,
      show fetch_fare_exact c10Fares "Hayali Hat" "Denizli otogar" "Sarayköy" = none
        by decide,
      seg_loop_eq_none c10Fares "Hayali Hat" (list_stops_for_route [] "Hayali Hat") 1 0 0 0
        (Nat.le_refl 0) Nat.one_pos (by decide)]
    rw [if_neg (by decide), if_neg (by decide)]
  refine ⟨by decide, by decide, h3, ?_⟩
  rw [h3]
  intro hcontra
  rw [show quote_price_segmented [] c10Fares "Denizli – İstanbul" "Denizli otogar" "Sarayköy"
      = (some 100, "direct") by decide] at hcontra
  exact (by decide : ((none : Option Rat), "segment-missing") ≠ (some 100, "direct")) hcontra

/-- C10 amended: a route name absent from both the routes table and the
built-in table receives the built-in Denizli – İstanbul stop list (never an
empty list or an error), so stop validation for an active trip on such a
route behaves exactly as for Denizli – İstanbul; fare lookups, however, stay
keyed by the unknown route name. -/
theorem unknown_route_defaults (routesTable : List RouteRow) (name : String)
    (hdb : routesTable.find? (fun r => r.name == name) = none)
    (hbuiltin : ROUTE_STOPS.find? (fun p => p.1 == name) = none) :
    get_stops routesTable name = denizliIstanbulStops
    ∧ (∀ (db : DB) (trip : Trip) (stop : String),
        db.active_trip_id = some trip.id →
        db.trips.find? (fun t => t.id == trip.id) = some trip →
        trip.route = name → db.routes = routesTable →
        validate_stop_for_active_trip db stop =
          denizliIstanbulStops.contains (py_strip stop)) := by
  have h1 : get_stops routesTable name = denizliIstanbulStops := by
    unfold get_stops
    rw [hdb, hbuiltin]
  refine ⟨h1, ?_⟩
  intro db trip stop hact hfind hroute hr
  unfold validate_stop_for_active_trip
  rw [hact]
  simp only [hfind, hroute, hr, h1]

/-- Database for the C10 witness: the active trip runs the unknown route. -/
def exampleUnknownDB : DB :=
  { trips := [⟨1, "2025-01-01", "Hayali Hat", "10:00", "20ABC123", "k1", "k2", "h", ""⟩],
    seats := [], walk_on_sales := [], consignments := [], consignment_photos := [],
    routes := [], fares := [], active_trip_id := some 1 }

/-- C10 witness: the unknown-route theorem at the concrete name "Hayali Hat"
with an empty routes table, including the stop-validation consequence. -/
theorem unknown_route_defaults_witness :
    get_stops [] "Hayali Hat" = denizliIstanbulStops
    ∧ validate_stop_for_active_trip exampleUnknownDB "Sarayköy" =
        denizliIstanbulStops.contains (py_strip "Sarayköy") :=
  ⟨(unknown_route_defaults [] "Hayali Hat" rfl (by decide)).1,
   (unknown_route_defaults [] "Hayali Hat" rfl (by decide)).2 exampleUnknownDB
     ⟨1, "2025-01-01", "Hayali Hat", "10:00", "20ABC123", "k1", "k2", "h", ""⟩
     "Sarayköy" rfl rfl rfl rfl⟩

end HostPanel
